import Mathlib

/-!
Verification of the debt amortization and aggregate financial metrics engine
of the personal-finance-dashboard repository (tools/pf_calcs.py).

Python floats are modelled as exact rationals (ℚ); the month counters are ℕ.
Each definition is a direct transcription of the corresponding Python
function; `payoffLoop` is the `while` loop of `_estimate_debt_payoff`
written as structural recursion on the remaining iteration budget
(`fuel = max_months - months`, so `fuel = 0` exactly when the Python loop
condition `months < max_months` fails).
-/

set_option allowUnsafeReducibility true in
attribute [semireducible] Rat.mul Rat.inv Rat.add Rat.sub

/-- The four `status` strings produced by `_estimate_debt_payoff`. -/
inductive PayoffStatus where
  | paid_off
  | no_payment
  | non_amortizing
  | too_long
deriving DecidableEq, Repr

/-- The result dict of `_estimate_debt_payoff` (tools/pf_calcs.py lines 23-29):
status, months, total_interest, monthly_interest, min_payment_to_amortize, reason. -/
structure PayoffEstimate where
  status : PayoffStatus
  months : Option ℕ
  totalInterest : Option ℚ
  monthlyInterest : ℚ
  minPaymentToAmortize : ℚ
  reason : Option String
deriving DecidableEq, Repr

/-- The `while b > 0 and months < max_months` loop of `_estimate_debt_payoff`
(tools/pf_calcs.py lines 77-118), including the two returns after the loop.
`fuel` is `max_months - months`; the `max_months` argument is carried only for
the `too_long` reason string. -/
def payoffLoop (monthly_rate payment monthly_interest : ℚ) (max_months : ℕ) :
    ℕ → ℚ → ℚ → ℕ → PayoffEstimate
  | 0, b, total_interest, months =>
      if 0 < b then
        { status := .too_long, months := none, totalInterest := some total_interest,
          monthlyInterest := monthly_interest,
          minPaymentToAmortize := monthly_interest + 1,
          reason := some ("Not paid off within " ++ toString max_months ++ " months.") }
      else
        { status := .paid_off, months := some months, totalInterest := some total_interest,
          monthlyInterest := monthly_interest,
          minPaymentToAmortize := monthly_interest + 1, reason := none }
  | fuel + 1, b, total_interest, months =>
      if 0 < b then
        let interest := b * monthly_rate
        let principal := payment - interest
        if principal ≤ 0 then
          { status := .non_amortizing, months := none, totalInterest := none,
            monthlyInterest := interest, minPaymentToAmortize := interest + 1,
            reason := some "Payment doesn't reduce principal." }
        else
          payoffLoop monthly_rate payment monthly_interest max_months
            fuel (b - principal) (total_interest + interest) (months + 1)
      else
        { status := .paid_off, months := some months, totalInterest := some total_interest,
          monthlyInterest := monthly_interest,
          minPaymentToAmortize := monthly_interest + 1, reason := none }

/-- `_estimate_debt_payoff(balance, apr_pct, payment, max_months=600)`
(tools/pf_calcs.py lines 14-118).  The Python `float(x or 0.0)` coercions are
the identity on numeric input, which is what ℚ models. -/
def estimate_debt_payoff (balance apr_pct payment : ℚ) (max_months : ℕ := 600) :
    PayoffEstimate :=
  if balance ≤ 0 then
    { status := .paid_off, months := some 0, totalInterest := some 0,
      monthlyInterest := 0, minPaymentToAmortize := 0, reason := none }
  else
    let monthly_rate := max apr_pct 0 / 100 / 12
    let monthly_interest := if 0 < monthly_rate then balance * monthly_rate else 0
    if payment ≤ 0 then
      { status := .no_payment, months := none, totalInterest := none,
        monthlyInterest := monthly_interest,
        minPaymentToAmortize := if 0 < monthly_rate then monthly_interest + 1 else 0,
        reason := some "No monthly payment entered." }
    else if monthly_rate ≤ 0 then
      { status := .paid_off, months := some ⌈balance / payment⌉.toNat,
        totalInterest := some 0, monthlyInterest := 0,
        minPaymentToAmortize := 0, reason := none }
    else if payment ≤ monthly_interest then
      { status := .non_amortizing, months := none, totalInterest := none,
        monthlyInterest := monthly_interest,
        minPaymentToAmortize := monthly_interest + 1,
        reason := some "Payment is less than (or equal to) monthly interest, so the balance will grow." }
    else
      payoffLoop monthly_rate payment monthly_interest max_months
        max_months balance 0 0

/-- One row of the debt table handed to `compute_metrics`: the numeric columns
`Balance`, `APR %`, `Monthly Payment` after the `float(x or 0.0)` coercion
(the `Debt` name and `Notes` columns play no numeric role). -/
structure DebtRow where
  balance : ℚ
  apr : ℚ
  payment : ℚ
deriving DecidableEq, Repr

/-- Modelled from the spec: `sum_df` is defined in `tools/pf_state.py`, which is
not among the supplied sources; per spec section 4.1 it sums the numeric field
across the rows, returns 0.0 for an empty collection, and coerces
non-numeric/missing entries to 0.0.  Rows here carry the already-coerced
rational values of the summed column, so it is the plain sum. -/
def sum_df (xs : List ℚ) : ℚ := xs.sum

/-- One entry of the `payoff_rows` list built by `compute_metrics`
(tools/pf_calcs.py lines 233-248); the display-only `years` and
`payoff_date` strings are not modelled. -/
structure PayoffRow where
  balance : ℚ
  apr_pct : ℚ
  payment : ℚ
  status : PayoffStatus
  reason : Option String
  monthly_interest : ℚ
  min_payment_to_amortize : ℚ
  months : Option ℕ
  total_interest : Option ℚ
deriving DecidableEq, Repr

/-- The body of the per-debt loop of `compute_metrics`
(tools/pf_calcs.py lines 209-248) for a single row. -/
def payoffRowOf (d : DebtRow) : PayoffRow :=
  let est := estimate_debt_payoff d.balance d.apr d.payment
  { balance := d.balance, apr_pct := d.apr, payment := d.payment,
    status := est.status, reason := est.reason,
    monthly_interest := est.monthlyInterest,
    min_payment_to_amortize := est.minPaymentToAmortize,
    months := est.months, total_interest := est.totalInterest }

/-- Rows with `balance ≤ 0` are skipped by the `continue`
(tools/pf_calcs.py line 219-220); the rest are kept. -/
def payoffRows (debts : List DebtRow) : List PayoffRow :=
  (debts.filter fun d => decide (0 < d.balance)).map payoffRowOf

/-- The statuses that set `has_non_amortizing` (tools/pf_calcs.py line 223). -/
def isBadStatus : PayoffStatus → Bool
  | .non_amortizing => true
  | .no_payment => true
  | .too_long => true
  | .paid_off => false

/-- The needs/wants/save-invest/unallocated percentage block of
`compute_metrics` (tools/pf_calcs.py lines 186-191): all four are `None`
unless `net_income > 0`. -/
def splitPcts (needs_total wants_total save_invest_total net_income : ℚ) :
    Option ℚ × Option ℚ × Option ℚ × Option ℚ :=
  if 0 < net_income then
    let npct := needs_total / net_income * 100
    let wpct := wants_total / net_income * 100
    let spct := save_invest_total / net_income * 100
    (some npct, some wpct, some spct, some (max 0 (100 - (npct + wpct + spct))))
  else (none, none, none, none)

/-- The weighted-APR block of `compute_metrics` (tools/pf_calcs.py lines
196-204): the accumulation `num += bal * apr` runs over every debt row, and
the result is `num / total_debt_balance` guarded by `total_debt_balance > 0`
(the inner guard of line 204 repeats the outer one of line 198). -/
def weightedAprOf (debts : List DebtRow) : Option ℚ :=
  let total_debt_balance := sum_df (debts.map fun d => d.balance)
  if 0 < total_debt_balance then
    if 0 < total_debt_balance then
      some (((debts.map fun d => d.balance * d.apr).sum) / total_debt_balance)
    else none
  else none

/-- The overall combined payoff estimate of `compute_metrics`
(tools/pf_calcs.py lines 250-272): `(overall_months, overall_interest)`,
both `None` unless every guard holds and the combined run is `paid_off`. -/
def overallEstimate (has_non_amortizing : Bool)
    (total_debt_balance total_monthly_debt_payments : ℚ)
    (weighted_apr : Option ℚ) : Option ℕ × Option ℚ :=
  match weighted_apr with
  | some wa =>
      if has_non_amortizing = false ∧ 0 < total_debt_balance ∧
          0 < total_monthly_debt_payments then
        let overall_est :=
          estimate_debt_payoff total_debt_balance wa total_monthly_debt_payments
        if overall_est.status = .paid_off then
          (overall_est.months, overall_est.totalInterest)
        else (none, none)
      else (none, none)
  | none => (none, none)

/-- The inputs `compute_metrics` reads from the session state: the numeric
columns of the eight row collections and the manual-deduction scalars
(tools/pf_calcs.py lines 122-143). -/
structure FinState where
  income : List ℚ
  fixed : List ℚ
  essential : List ℚ
  nonessential : List ℚ
  saving : List ℚ
  investing : List ℚ
  debts : List DebtRow
  assets : List ℚ
  liabilities : List ℚ
  manual_taxes : ℚ
  manual_retirement : ℚ
  manual_benefits : ℚ
  manual_other_ssi : ℚ
  manual_match : ℚ
  use_paycheck_breakdown : Bool
deriving Repr

/-- The numeric outputs of `compute_metrics` (tools/pf_calcs.py lines 286-344);
the dataframe pass-throughs and `variable_for_visuals` concatenation are
presentation data and not modelled.  `debt_overall_payoff_date` is
`today + overall_months`; it is represented by its month offset, which is
set exactly when the code sets the date (tools/pf_calcs.py lines 269-272). -/
structure Metrics where
  total_income : ℚ
  net_income : ℚ
  manual_deductions_total : ℚ
  est_tax : ℚ
  fixed_total : ℚ
  essential_total : ℚ
  nonessential_total : ℚ
  expenses_total : ℚ
  saving_total : ℚ
  investing_total : ℚ
  investing_cashflow : ℚ
  investing_display : ℚ
  total_monthly_debt_payments : ℚ
  total_outflow : ℚ
  remaining : ℚ
  has_debt : Bool
  total_assets : ℚ
  total_liabilities : ℚ
  net_worth : ℚ
  employee_retirement : ℚ
  company_match : ℚ
  total_retirement_contrib : ℚ
  investing_rate_of_gross : Option ℚ
  investing_rate_of_net : Option ℚ
  debt_minimums : ℚ
  emergency_minimum_monthly : ℚ
  needs_pct : Option ℚ
  wants_pct : Option ℚ
  save_invest_pct : Option ℚ
  unallocated_pct : Option ℚ
  total_debt_balance : ℚ
  debt_weighted_apr : Option ℚ
  debt_payoff_rows : List PayoffRow
  debt_has_non_amortizing : Bool
  debt_overall_months : Option ℕ
  debt_overall_interest : Option ℚ
  debt_overall_payoff_date : Option ℕ
  debt_burden_pct : Option ℚ

/-- `compute_metrics()` (tools/pf_calcs.py lines 121-344). -/
def compute_metrics (s : FinState) : Metrics :=
  let total_income := sum_df s.income
  let manual_deductions_total :=
    s.manual_taxes + s.manual_retirement + s.manual_benefits + s.manual_other_ssi
  let net_income :=
    if s.use_paycheck_breakdown then total_income - manual_deductions_total else total_income
  let est_tax : ℚ := 0
  let fixed_total := sum_df s.fixed
  let essential_total := sum_df s.essential
  let nonessential_total := sum_df s.nonessential
  let expenses_total := fixed_total + essential_total + nonessential_total
  let saving_total := sum_df s.saving
  let investing_total := sum_df s.investing
  let investing_cashflow := investing_total
  let investing_display := investing_total + s.manual_retirement + s.manual_match
  let total_monthly_debt_payments := sum_df (s.debts.map fun d => d.payment)
  let total_saving_and_investing_cashflow := saving_total + investing_cashflow
  let total_outflow :=
    expenses_total + total_saving_and_investing_cashflow + total_monthly_debt_payments
  let remaining := net_income - total_outflow
  let has_debt := decide (0 < total_monthly_debt_payments)
  let total_assets := sum_df s.assets
  let total_liabilities := sum_df s.liabilities
  let net_worth := total_assets - total_liabilities
  let employee_retirement := s.manual_retirement
  let company_match := s.manual_match
  let total_retirement_contrib := employee_retirement + company_match
  let investing_rate_of_gross :=
    if 0 < total_income then some (investing_display / total_income * 100) else none
  let investing_rate_of_net :=
    if 0 < net_income then some (investing_display / net_income * 100) else none
  let debt_minimums := total_monthly_debt_payments
  let emergency_minimum_monthly := fixed_total + essential_total + debt_minimums
  let needs_total := emergency_minimum_monthly
  let wants_total := nonessential_total
  let save_invest_total := saving_total + investing_cashflow
  let pcts := splitPcts needs_total wants_total save_invest_total net_income
  let total_debt_balance := sum_df (s.debts.map fun d => d.balance)
  let weighted_apr := weightedAprOf s.debts
  let rows := payoffRows s.debts
  let has_non_amortizing := rows.any fun r => isBadStatus r.status
  let overall :=
    overallEstimate has_non_amortizing total_debt_balance
      total_monthly_debt_payments weighted_apr
  let debt_burden_pct :=
    if 0 < net_income ∧ 0 < total_monthly_debt_payments then
      some (total_monthly_debt_payments / net_income * 100)
    else none
  { total_income := total_income, net_income := net_income,
    manual_deductions_total := manual_deductions_total, est_tax := est_tax,
    fixed_total := fixed_total, essential_total := essential_total,
    nonessential_total := nonessential_total, expenses_total := expenses_total,
    saving_total := saving_total, investing_total := investing_total,
    investing_cashflow := investing_cashflow, investing_display := investing_display,
    total_monthly_debt_payments := total_monthly_debt_payments,
    total_outflow := total_outflow, remaining := remaining, has_debt := has_debt,
    total_assets := total_assets, total_liabilities := total_liabilities,
    net_worth := net_worth, employee_retirement := employee_retirement,
    company_match := company_match, total_retirement_contrib := total_retirement_contrib,
    investing_rate_of_gross := investing_rate_of_gross,
    investing_rate_of_net := investing_rate_of_net,
    debt_minimums := debt_minimums,
    emergency_minimum_monthly := emergency_minimum_monthly,
    needs_pct := pcts.1, wants_pct := pcts.2.1, save_invest_pct := pcts.2.2.1,
    unallocated_pct := pcts.2.2.2,
    total_debt_balance := total_debt_balance, debt_weighted_apr := weighted_apr,
    debt_payoff_rows := rows, debt_has_non_amortizing := has_non_amortizing,
    debt_overall_months := overall.1, debt_overall_interest := overall.2,
    debt_overall_payoff_date := overall.1, debt_burden_pct := debt_burden_pct }

/-- An all-empty state, the base for concrete test states. -/
def emptyState : FinState :=
  { income := [], fixed := [], essential := [], nonessential := [],
    saving := [], investing := [], debts := [], assets := [], liabilities := [],
    manual_taxes := 0, manual_retirement := 0, manual_benefits := 0,
    manual_other_ssi := 0, manual_match := 0, use_paycheck_breakdown := false }

/-- A state spending more than its income: net income 100, fixed costs 200. -/
def ex4 : FinState := { emptyState with income := [100], fixed := [200] }

/-- A state with outflow within income: income 1000, fixed 300,
non-essential 100, saving 100. -/
def ex4w : FinState :=
  { emptyState with
    income := [1000]
    fixed := [300]
    nonessential := [100]
    saving := [100] }

/-- A state with a single amortizing debt. -/
def ex5 : FinState := { emptyState with debts := [⟨1000, 12, 100⟩] }

/-- The two-debt state of the spec's weighted-APR example. -/
def ex7 : FinState :=
  { emptyState with debts := [⟨1000, 10, 0⟩, ⟨3000, 20, 0⟩] }

/-- A state with income 1000 and one debt costing 250 a month. -/
def ex9 : FinState :=
  { emptyState with income := [1000], debts := [⟨5000, 10, 250⟩] }

/-- The balance sequence simulated by the amortization loop: `bSeq b r p n` is
the value of the Python variable `b` after `n` iterations of the loop body
`b -= payment - b * monthly_rate` (tools/pf_calcs.py lines 83-97). -/
def bSeq (balance rate payment : ℚ) : ℕ → ℚ
  | 0 => balance
  | n + 1 =>
      bSeq balance rate payment n - (payment - bSeq balance rate payment n * rate)

/-- The interest the loop accumulates from iteration `k` over the next `fuel`
iterations: `total_interest += b * monthly_rate` (tools/pf_calcs.py line 98). -/
def interestSum (balance rate payment : ℚ) : ℕ → ℕ → ℚ
  | _, 0 => 0
  | k, fuel + 1 =>
      bSeq balance rate payment k * rate +
        interestSum balance rate payment (k + 1) fuel

section AmortizationLemmas

variable {balance rate payment : ℚ}

/-- While the payment exceeds the interest on the starting balance, the
simulated balance never rises above its starting value. -/
theorem bSeq_le_balance (hr : 0 < rate) (hp : balance * rate < payment) :
    ∀ n, bSeq balance rate payment n ≤ balance := by
  intro n
  induction n with
  | zero => exact le_refl _
  | succ n ih =>
      have hmul : bSeq balance rate payment n * rate ≤ balance * rate :=
        mul_le_mul_of_nonneg_right ih hr.le
      simp only [bSeq]
      linarith

/-- Each iteration of the loop subtracts a strictly positive principal. -/
theorem bSeq_strict_anti (hr : 0 < rate) (hp : balance * rate < payment) :
    ∀ n, bSeq balance rate payment (n + 1) < bSeq balance rate payment n := by
  intro n
  have hle := bSeq_le_balance hr hp n
  have hmul : bSeq balance rate payment n * rate ≤ balance * rate :=
    mul_le_mul_of_nonneg_right hle hr.le
  simp only [bSeq]
  linarith

/-- If the simulated balance first reaches `≤ 0` at iteration `m`, the loop
starting at iteration `k ≤ m` with at least `m - k` iterations of budget left
exits `paid_off` with `months = m`. -/
theorem payoffLoop_paid_off (mi : ℚ) (maxM : ℕ)
    (hr : 0 < rate) (hp : balance * rate < payment) (m : ℕ)
    (hm : bSeq balance rate payment m ≤ 0)
    (hpos : ∀ j < m, 0 < bSeq balance rate payment j) :
    ∀ fuel k ti, k ≤ m → m ≤ k + fuel →
      (payoffLoop rate payment mi maxM fuel (bSeq balance rate payment k) ti k).status
          = .paid_off ∧
      (payoffLoop rate payment mi maxM fuel (bSeq balance rate payment k) ti k).months
          = some m := by
  intro fuel
  induction fuel with
  | zero =>
      intro k ti hk hkm
      have hkeq : k = m := by omega
      subst hkeq
      simp [payoffLoop, not_lt.mpr hm]
  | succ fuel ih =>
      intro k ti hk hkm
      rcases eq_or_lt_of_le hk with hkeq | hklt
      · subst hkeq
        simp [payoffLoop, not_lt.mpr hm]
      · have hbk : 0 < bSeq balance rate payment k := hpos k hklt
        have hble : bSeq balance rate payment k ≤ balance := bSeq_le_balance hr hp k
        have hmul : bSeq balance rate payment k * rate ≤ balance * rate :=
          mul_le_mul_of_nonneg_right hble hr.le
        have hprin : ¬ (payment - bSeq balance rate payment k * rate ≤ 0) := by linarith
        have hstep :
            bSeq balance rate payment k -
                (payment - bSeq balance rate payment k * rate)
              = bSeq balance rate payment (k + 1) := by
          simp [bSeq]
        simp only [payoffLoop, if_pos hbk, if_neg hprin]
        rw [hstep]
        exact ih (k + 1) (ti + bSeq balance rate payment k * rate) hklt (by omega)

/-- If the simulated balance stays positive through iteration `maxM`, the loop
exits `too_long`, reporting the accumulated interest and the caller's
`monthly_interest`. -/
theorem payoffLoop_too_long (mi : ℚ) (maxM : ℕ)
    (hr : 0 < rate) (hp : balance * rate < payment)
    (hpos : ∀ j, j ≤ maxM → 0 < bSeq balance rate payment j) :
    ∀ fuel k ti, k + fuel = maxM →
      (payoffLoop rate payment mi maxM fuel (bSeq balance rate payment k) ti k).status
          = .too_long ∧
      (payoffLoop rate payment mi maxM fuel (bSeq balance rate payment k) ti k).months
          = none ∧
      (payoffLoop rate payment mi maxM fuel (bSeq balance rate payment k) ti k).totalInterest
          = some (ti + interestSum balance rate payment k fuel) ∧
      (payoffLoop rate payment mi maxM fuel (bSeq balance rate payment k) ti k).monthlyInterest
          = mi ∧
      (payoffLoop rate payment mi maxM fuel (bSeq balance rate payment k) ti k).minPaymentToAmortize
          = mi + 1 := by
  intro fuel
  induction fuel with
  | zero =>
      intro k ti hkm
      have hbk : 0 < bSeq balance rate payment k := hpos k (by omega)
      simp [payoffLoop, if_pos hbk, interestSum]
  | succ fuel ih =>
      intro k ti hkm
      have hbk : 0 < bSeq balance rate payment k := hpos k (by omega)
      have hble : bSeq balance rate payment k ≤ balance := bSeq_le_balance hr hp k
      have hmul : bSeq balance rate payment k * rate ≤ balance * rate :=
        mul_le_mul_of_nonneg_right hble hr.le
      have hprin : ¬ (payment - bSeq balance rate payment k * rate ≤ 0) := by linarith
      have hstep :
          bSeq balance rate payment k -
              (payment - bSeq balance rate payment k * rate)
            = bSeq balance rate payment (k + 1) := by
        simp [bSeq]
      simp only [payoffLoop, if_pos hbk, if_neg hprin]
      rw [hstep]
      have := ih (k + 1) (ti + bSeq balance rate payment k * rate) (by omega)
      refine ⟨this.1, this.2.1, ?_, this.2.2.2⟩
      rw [this.2.2.1]
      simp only [interestSum]
      ring_nf

end AmortizationLemmas

section EstimateLemmas

variable {balance apr payment : ℚ} {maxM : ℕ}

/-- With a positive balance, a positive APR and a payment above the first
month's interest, `_estimate_debt_payoff` falls through every early return
and runs the amortization loop. -/
theorem estimate_eq_loop (hb : 0 < balance) (ha : 0 < apr)
    (hp : balance * (apr / 100 / 12) < payment) :
    estimate_debt_payoff balance apr payment maxM =
      payoffLoop (apr / 100 / 12) payment (balance * (apr / 100 / 12)) maxM
        maxM balance 0 0 := by
  have hr : 0 < apr / 100 / 12 := by positivity
  have hmi : 0 < balance * (apr / 100 / 12) := by positivity
  have hpay : 0 < payment := lt_trans hmi hp
  simp only [estimate_debt_payoff]
  rw [max_eq_left ha.le]
  split_ifs with h1 h2 h3 h4 <;> first | rfl | linarith

/-- The `monthly_rate <= 0` branch (tools/pf_calcs.py lines 52-62): with
APR ≤ 0 (negative APR clamped to 0 by `max`) and a positive payment the
result is an immediate linear payoff. -/
theorem estimate_no_interest (hb : 0 < balance) (hpay : 0 < payment)
    (ha : apr ≤ 0) :
    estimate_debt_payoff balance apr payment maxM =
      { status := .paid_off, months := some ⌈balance / payment⌉.toNat,
        totalInterest := some 0, monthlyInterest := 0,
        minPaymentToAmortize := 0, reason := none } := by
  have hmax : max apr 0 = 0 := max_eq_right ha
  have h0 : max apr 0 / 100 / 12 = 0 := by rw [hmax]; norm_num
  simp only [estimate_debt_payoff, h0]
  split_ifs with h1 h2 h3 <;> first | rfl | linarith

/-- The `payment <= monthly_interest` branch (tools/pf_calcs.py lines 64-75). -/
theorem estimate_non_amortizing (hb : 0 < balance) (hpay : 0 < payment)
    (ha : 0 < apr) (hle : payment ≤ balance * (apr / 100 / 12)) :
    estimate_debt_payoff balance apr payment maxM =
      { status := .non_amortizing, months := none, totalInterest := none,
        monthlyInterest := balance * (apr / 100 / 12),
        minPaymentToAmortize := balance * (apr / 100 / 12) + 1,
        reason := some "Payment is less than (or equal to) monthly interest, so the balance will grow." } := by
  have hr : 0 < apr / 100 / 12 := by positivity
  simp only [estimate_debt_payoff]
  rw [max_eq_left ha.le]
  split_ifs with h1 h2 h3 <;> first | rfl | linarith

/-- A `too_long` result can only come out of the amortization loop, which is
reached only when the clamped monthly rate is positive, i.e. APR > 0. -/
theorem estimate_too_long_pos_apr
    (h : (estimate_debt_payoff balance apr payment maxM).status = .too_long) :
    0 < apr := by
  by_contra ha
  push_neg at ha
  rw [estimate_debt_payoff] at h
  have hmax : max apr 0 = 0 := max_eq_right ha
  rw [hmax] at h
  norm_num at h
  split_ifs at h

/-- Any `paid_off` result of `_estimate_debt_payoff` carries concrete
`months` and `total_interest` values (needed for the overall estimate). -/
theorem payoffLoop_paid_off_isSome
    (rate pay mi : ℚ) (mm : ℕ) :
    ∀ fuel (b ti : ℚ) (months : ℕ),
      (payoffLoop rate pay mi mm fuel b ti months).status = .paid_off →
      (payoffLoop rate pay mi mm fuel b ti months).months ≠ none ∧
      (payoffLoop rate pay mi mm fuel b ti months).totalInterest ≠ none := by
  intro fuel
  induction fuel with
  | zero =>
      intro b ti months h
      by_cases hb : 0 < b
      · exfalso
        simp only [payoffLoop, if_pos hb] at h
        exact absurd h (by decide)
      · simp only [payoffLoop, if_neg hb]
        simp
  | succ fuel ih =>
      intro b ti months h
      by_cases hb : 0 < b
      · by_cases hple : pay - b * rate ≤ 0
        · exfalso
          simp only [payoffLoop, if_pos hb, if_pos hple] at h
          exact absurd h (by decide)
        · simp only [payoffLoop, if_pos hb, if_neg hple] at h ⊢
          exact ih _ _ _ h
      · simp only [payoffLoop, if_neg hb]
        simp

/-- Field facts for every `paid_off` estimate. -/
theorem estimate_paid_off_isSome
    (h : (estimate_debt_payoff balance apr payment maxM).status = .paid_off) :
    (estimate_debt_payoff balance apr payment maxM).months ≠ none ∧
    (estimate_debt_payoff balance apr payment maxM).totalInterest ≠ none := by
  by_cases hb : balance ≤ 0
  · simp only [estimate_debt_payoff, if_pos hb]
    simp
  · by_cases hpay : payment ≤ 0
    · exfalso
      simp only [estimate_debt_payoff, if_neg hb, if_pos hpay] at h
      exact absurd h (by decide)
    · by_cases hr0 : max apr 0 / 100 / 12 ≤ 0
      · simp only [estimate_debt_payoff, if_neg hb, if_neg hpay, if_pos hr0]
        simp
      · by_cases hle : payment ≤
            (if 0 < max apr 0 / 100 / 12 then balance * (max apr 0 / 100 / 12) else 0)
        · exfalso
          simp only [estimate_debt_payoff, if_neg hb, if_neg hpay, if_neg hr0,
            if_pos hle] at h
          exact absurd h (by decide)
        · simp only [estimate_debt_payoff, if_neg hb, if_neg hpay, if_neg hr0,
            if_neg hle] at h ⊢
          exact payoffLoop_paid_off_isSome _ _ _ _ _ _ _ _ h

end EstimateLemmas

/-- C1: for every balance > 0, apr > 0 and payment strictly greater than the
initial monthly interest balance * apr/100/12, the amortization loop's balance
sequence is strictly decreasing (each iteration subtracts a positive
principal), and if it first reaches ≤ 0 at iteration m ≤ maxMonths, the
returned estimate has status paid_off and months = m. -/
theorem claim_C1 (balance apr payment : ℚ) (maxM : ℕ)
    (hb : 0 < balance) (ha : 0 < apr)
    (hp : balance * (apr / 100 / 12) < payment) :
    (∀ n, bSeq balance (apr / 100 / 12) payment (n + 1)
        < bSeq balance (apr / 100 / 12) payment n) ∧
    (∀ m, m ≤ maxM → bSeq balance (apr / 100 / 12) payment m ≤ 0 →
      (∀ j < m, 0 < bSeq balance (apr / 100 / 12) payment j) →
      (estimate_debt_payoff balance apr payment maxM).status = .paid_off ∧
      (estimate_debt_payoff balance apr payment maxM).months = some m) := by
  have hr : 0 < apr / 100 / 12 := by positivity
  refine ⟨bSeq_strict_anti hr hp, ?_⟩
  intro m hmle hm hpos
  rw [estimate_eq_loop hb ha hp]
  exact payoffLoop_paid_off _ maxM hr hp m hm hpos maxM 0 0 (Nat.zero_le m)
    (by omega)

/-- Witness for C1 at balance 1200, APR 12, payment 110, maxMonths 600. -/
theorem claim_C1_witness :
    ((0:ℚ) < 1200 ∧ (0:ℚ) < 12 ∧ (1200:ℚ) * (12 / 100 / 12) < 110) ∧
    ((∀ n, bSeq 1200 (12 / 100 / 12) 110 (n + 1)
        < bSeq 1200 (12 / 100 / 12) 110 n) ∧
     (∀ m, m ≤ 600 → bSeq 1200 (12 / 100 / 12) 110 m ≤ 0 →
        (∀ j < m, 0 < bSeq 1200 (12 / 100 / 12) 110 j) →
        (estimate_debt_payoff 1200 12 110 600).status = .paid_off ∧
        (estimate_debt_payoff 1200 12 110 600).months = some m)) ∧
    (estimate_debt_payoff 1200 12 110 600).months = some 12 :=
  ⟨⟨by decide, by decide, by decide⟩,
   claim_C1 1200 12 110 600 (by decide) (by decide) (by decide),
   by decide⟩

set_option maxRecDepth 100000 in
/-- C2 counterexample: balance 100000 at APR 12 with payment 1001 exhausts the
600-month cap (status too_long), yet the returned totalInterest is not null —
it holds the interest accumulated so far, contradicting the claimed
"totalInterest = null". -/
theorem claim_C2_counterexample :
    (estimate_debt_payoff 100000 12 1001 600).status = .too_long ∧
    (estimate_debt_payoff 100000 12 1001 600).months = none ∧
    (estimate_debt_payoff 100000 12 1001 600).totalInterest ≠ none := by
  exact ⟨by decide, by decide, by decide⟩

/-- C2 as amended: when the loop exhausts maxMonths with the balance still
positive, the result has status too_long, months = null, totalInterest = the
interest accumulated over the maxMonths simulated iterations (not null), the
initial monthlyInterest, and minPaymentToAmortize = monthlyInterest + 1. -/
theorem claim_C2_amended (balance apr payment : ℚ) (maxM : ℕ)
    (hb : 0 < balance) (ha : 0 < apr)
    (hp : balance * (apr / 100 / 12) < payment)
    (hpos : ∀ j, j ≤ maxM → 0 < bSeq balance (apr / 100 / 12) payment j) :
    (estimate_debt_payoff balance apr payment maxM).status = .too_long ∧
    (estimate_debt_payoff balance apr payment maxM).months = none ∧
    (estimate_debt_payoff balance apr payment maxM).totalInterest
        = some (interestSum balance (apr / 100 / 12) payment 0 maxM) ∧
    (estimate_debt_payoff balance apr payment maxM).monthlyInterest
        = balance * (apr / 100 / 12) ∧
    (estimate_debt_payoff balance apr payment maxM).minPaymentToAmortize
        = balance * (apr / 100 / 12) + 1 := by
  have hr : 0 < apr / 100 / 12 := by positivity
  rw [estimate_eq_loop hb ha hp]
  have h := payoffLoop_too_long (balance * (apr / 100 / 12)) maxM hr hp hpos
    maxM 0 0 (by omega)
  rw [show bSeq balance (apr / 100 / 12) payment 0 = balance from rfl] at h
  refine ⟨h.1, h.2.1, ?_, h.2.2.2⟩
  rw [h.2.2.1, zero_add]

/-- Witness for the amended C2 at balance 100000, APR 12, payment 1001,
maxMonths 5. -/
theorem claim_C2_witness :
    ((0:ℚ) < 100000 ∧ (0:ℚ) < 12 ∧ (100000:ℚ) * (12 / 100 / 12) < 1001 ∧
      (∀ j, j ≤ 5 → 0 < bSeq 100000 (12 / 100 / 12) 1001 j)) ∧
    ((estimate_debt_payoff 100000 12 1001 5).status = .too_long ∧
     (estimate_debt_payoff 100000 12 1001 5).months = none ∧
     (estimate_debt_payoff 100000 12 1001 5).totalInterest
         = some (interestSum 100000 (12 / 100 / 12) 1001 0 5) ∧
     (estimate_debt_payoff 100000 12 1001 5).monthlyInterest
         = (100000:ℚ) * (12 / 100 / 12) ∧
     (estimate_debt_payoff 100000 12 1001 5).minPaymentToAmortize
         = (100000:ℚ) * (12 / 100 / 12) + 1) :=
  ⟨⟨by decide, by decide, by decide, by decide⟩,
   claim_C2_amended 100000 12 1001 5 (by decide) (by decide) (by decide)
     (by decide)⟩

/-- C3: with balance > 0, payment > 0, apr > 0 and payment at most the monthly
interest balance * apr/100/12 computed at the original balance, the estimate is
non_amortizing with months and totalInterest null and
minPaymentToAmortize = monthlyInterest + 1. -/
theorem claim_C3 (balance apr payment : ℚ) (maxM : ℕ)
    (hb : 0 < balance) (hpay : 0 < payment) (ha : 0 < apr)
    (hle : payment ≤ balance * (apr / 100 / 12)) :
    (estimate_debt_payoff balance apr payment maxM).status = .non_amortizing ∧
    (estimate_debt_payoff balance apr payment maxM).months = none ∧
    (estimate_debt_payoff balance apr payment maxM).totalInterest = none ∧
    (estimate_debt_payoff balance apr payment maxM).monthlyInterest
        = balance * (apr / 100 / 12) ∧
    (estimate_debt_payoff balance apr payment maxM).minPaymentToAmortize
        = balance * (apr / 100 / 12) + 1 := by
  rw [estimate_non_amortizing hb hpay ha hle]
  exact ⟨rfl, rfl, rfl, rfl, rfl⟩

/-- Witness for C3: the spec's instance balance 5000, apr 24, payment 90 gives
monthlyInterest 100, status non_amortizing, minPaymentToAmortize 101. -/
theorem claim_C3_witness :
    ((0:ℚ) < 5000 ∧ (0:ℚ) < 90 ∧ (0:ℚ) < 24 ∧
      (90:ℚ) ≤ 5000 * (24 / 100 / 12)) ∧
    ((estimate_debt_payoff 5000 24 90 600).status = .non_amortizing ∧
     (estimate_debt_payoff 5000 24 90 600).months = none ∧
     (estimate_debt_payoff 5000 24 90 600).totalInterest = none ∧
     (estimate_debt_payoff 5000 24 90 600).monthlyInterest
         = (5000:ℚ) * (24 / 100 / 12) ∧
     (estimate_debt_payoff 5000 24 90 600).minPaymentToAmortize
         = (5000:ℚ) * (24 / 100 / 12) + 1) ∧
    (5000:ℚ) * (24 / 100 / 12) = 100 ∧
    (5000:ℚ) * (24 / 100 / 12) + 1 = 101 :=
  ⟨⟨by decide, by decide, by decide, by decide⟩,
   claim_C3 5000 24 90 600 (by decide) (by decide) (by decide) (by decide),
   by decide, by decide⟩

/-- C6: with balance > 0, payment > 0 and APR ≤ 0 (negative APR clamped to 0,
not rejected), the estimate is paid_off with months = ceil(balance/payment)
and totalInterest = 0. -/
theorem claim_C6 (balance apr payment : ℚ) (maxM : ℕ)
    (hb : 0 < balance) (hpay : 0 < payment) (ha : apr ≤ 0) :
    (estimate_debt_payoff balance apr payment maxM).status = .paid_off ∧
    (estimate_debt_payoff balance apr payment maxM).months
        = some ⌈balance / payment⌉.toNat ∧
    (estimate_debt_payoff balance apr payment maxM).totalInterest = some 0 := by
  rw [estimate_no_interest hb hpay ha]
  exact ⟨rfl, rfl, rfl⟩

/-- Witness for C6: the spec's instance balance 1200, apr 0, payment 100 gives
months 12 and totalInterest 0; a negative APR behaves the same way. -/
theorem claim_C6_witness :
    ((0:ℚ) < 1200 ∧ (0:ℚ) < 100 ∧ (0:ℚ) ≤ 0) ∧
    ((estimate_debt_payoff 1200 0 100 600).status = .paid_off ∧
     (estimate_debt_payoff 1200 0 100 600).months
         = some ⌈(1200:ℚ) / 100⌉.toNat ∧
     (estimate_debt_payoff 1200 0 100 600).totalInterest = some 0) ∧
    ⌈(1200:ℚ) / 100⌉.toNat = 12 ∧
    (estimate_debt_payoff 1200 (-5) 100 600).months = some 12 :=
  ⟨⟨by decide, by decide, by decide⟩,
   claim_C6 1200 0 100 600 (by decide) (by decide) (by decide),
   by decide, by decide⟩

/-- C10: with APR ≤ 0 the no-interest branch returns
months = ceil(balance/payment) even beyond the maxMonths cap, and a too_long
status is only possible when APR > 0. -/
theorem claim_C10 (balance apr payment : ℚ) (maxM : ℕ) :
    (0 < balance → 0 < payment → apr ≤ 0 →
      (estimate_debt_payoff balance apr payment maxM).status = .paid_off ∧
      (estimate_debt_payoff balance apr payment maxM).months
          = some ⌈balance / payment⌉.toNat) ∧
    ((estimate_debt_payoff balance apr payment maxM).status = .too_long →
      0 < apr) := by
  constructor
  · intro hb hpay ha
    rw [estimate_no_interest hb hpay ha]
    exact ⟨rfl, rfl⟩
  · exact estimate_too_long_pos_apr

/-- Witness for C10: balance 100000 at APR 0 paying 100 needs 1000 months,
beyond the 600-month cap, and is still reported paid_off. -/
theorem claim_C10_witness :
    ((0:ℚ) < 100000 ∧ (0:ℚ) < 100 ∧ (0:ℚ) ≤ 0) ∧
    ((estimate_debt_payoff 100000 0 100 600).status = .paid_off ∧
     (estimate_debt_payoff 100000 0 100 600).months
         = some ⌈(100000:ℚ) / 100⌉.toNat) ∧
    ⌈(100000:ℚ) / 100⌉.toNat = 1000 ∧ 600 < 1000 :=
  ⟨⟨by decide, by decide, by decide⟩,
   (claim_C10 100000 0 100 600).1 (by decide) (by decide) (by decide),
   by decide, by decide⟩

/-- C4 counterexample: with income 100 and fixed expenses 200 the net income
is positive and the inputs are non-negative, yet needsPct + wantsPct +
saveInvestPct = 200 > 100 and the four percentages total 200, not 100. -/
theorem claim_C4_counterexample :
    0 < (compute_metrics ex4).net_income ∧
    (compute_metrics ex4).needs_pct = some 200 ∧
    (compute_metrics ex4).wants_pct = some 0 ∧
    (compute_metrics ex4).save_invest_pct = some 0 ∧
    (compute_metrics ex4).unallocated_pct = some 0 ∧
    ¬ ((200:ℚ) + 0 + 0 ≤ 100) ∧ (200:ℚ) + 0 + 0 + 0 ≠ 100 := by
  decide

/-- C4 as amended: when net income > 0 the three percentages are each
component total divided by net income times 100 and
unallocatedPct = max(0, 100 − their sum); the three sum to at most 100 and
the four total exactly 100 whenever the allocated outflow does not exceed
net income (not for arbitrary non-negative inputs). -/
theorem claim_C4_amended (s : FinState)
    (h : 0 < (compute_metrics s).net_income) :
    ∃ n w v u : ℚ,
      (compute_metrics s).needs_pct = some n ∧
      (compute_metrics s).wants_pct = some w ∧
      (compute_metrics s).save_invest_pct = some v ∧
      (compute_metrics s).unallocated_pct = some u ∧
      n = (compute_metrics s).emergency_minimum_monthly
            / (compute_metrics s).net_income * 100 ∧
      w = (compute_metrics s).nonessential_total
            / (compute_metrics s).net_income * 100 ∧
      v = ((compute_metrics s).saving_total + (compute_metrics s).investing_cashflow)
            / (compute_metrics s).net_income * 100 ∧
      u = max 0 (100 - (n + w + v)) ∧
      ((compute_metrics s).total_outflow ≤ (compute_metrics s).net_income →
        n + w + v ≤ 100 ∧ n + w + v + u = 100) := by
  have hp1 : (compute_metrics s).needs_pct
      = (splitPcts (compute_metrics s).emergency_minimum_monthly
          (compute_metrics s).nonessential_total
          ((compute_metrics s).saving_total + (compute_metrics s).investing_cashflow)
          (compute_metrics s).net_income).1 := rfl
  have hp2 : (compute_metrics s).wants_pct
      = (splitPcts (compute_metrics s).emergency_minimum_monthly
          (compute_metrics s).nonessential_total
          ((compute_metrics s).saving_total + (compute_metrics s).investing_cashflow)
          (compute_metrics s).net_income).2.1 := rfl
  have hp3 : (compute_metrics s).save_invest_pct
      = (splitPcts (compute_metrics s).emergency_minimum_monthly
          (compute_metrics s).nonessential_total
          ((compute_metrics s).saving_total + (compute_metrics s).investing_cashflow)
          (compute_metrics s).net_income).2.2.1 := rfl
  have hp4 : (compute_metrics s).unallocated_pct
      = (splitPcts (compute_metrics s).emergency_minimum_monthly
          (compute_metrics s).nonessential_total
          ((compute_metrics s).saving_total + (compute_metrics s).investing_cashflow)
          (compute_metrics s).net_income).2.2.2 := rfl
  set A := (compute_metrics s).emergency_minimum_monthly with hA
  set B := (compute_metrics s).nonessential_total with hB
  set C := (compute_metrics s).saving_total + (compute_metrics s).investing_cashflow
    with hC
  set N := (compute_metrics s).net_income with hN
  refine ⟨A / N * 100, B / N * 100, C / N * 100,
    max 0 (100 - (A / N * 100 + B / N * 100 + C / N * 100)), ?_, ?_, ?_, ?_,
    rfl, rfl, rfl, rfl, ?_⟩
  · rw [hp1]; simp only [splitPcts, if_pos h]
  · rw [hp2]; simp only [splitPcts, if_pos h]
  · rw [hp3]; simp only [splitPcts, if_pos h]
  · rw [hp4]; simp only [splitPcts, if_pos h]
  · intro hout
    have habc : A + B + C = (compute_metrics s).total_outflow := by
      have e1 : A = sum_df s.fixed + sum_df s.essential
          + sum_df (s.debts.map fun d => d.payment) := rfl
      have e2 : B = sum_df s.nonessential := rfl
      have e3 : C = sum_df s.saving + sum_df s.investing := rfl
      have e4 : (compute_metrics s).total_outflow
          = sum_df s.fixed + sum_df s.essential + sum_df s.nonessential
            + (sum_df s.saving + sum_df s.investing)
            + sum_df (s.debts.map fun d => d.payment) := rfl
      rw [e1, e2, e3, e4]; ring
    have hsum : A / N * 100 + B / N * 100 + C / N * 100
        = (A + B + C) / N * 100 := by ring
    have hdiv : (A + B + C) / N ≤ 1 := by
      rw [div_le_one h, habc]; exact hout
    have h100 : A / N * 100 + B / N * 100 + C / N * 100 ≤ 100 := by
      rw [hsum]
      have := mul_le_mul_of_nonneg_right hdiv (by norm_num : (0:ℚ) ≤ 100)
      linarith
    refine ⟨h100, ?_⟩
    rw [max_eq_right (by linarith : (0:ℚ) ≤ 100
      - (A / N * 100 + B / N * 100 + C / N * 100))]
    ring

/-- Witness for the amended C4 at income 1000, fixed 300, non-essential 100,
saving 100: the split is 30/10/10 with 50 unallocated. -/
theorem claim_C4_witness :
    (0 < (compute_metrics ex4w).net_income) ∧
    (∃ n w v u : ℚ,
      (compute_metrics ex4w).needs_pct = some n ∧
      (compute_metrics ex4w).wants_pct = some w ∧
      (compute_metrics ex4w).save_invest_pct = some v ∧
      (compute_metrics ex4w).unallocated_pct = some u ∧
      n = (compute_metrics ex4w).emergency_minimum_monthly
            / (compute_metrics ex4w).net_income * 100 ∧
      w = (compute_metrics ex4w).nonessential_total
            / (compute_metrics ex4w).net_income * 100 ∧
      v = ((compute_metrics ex4w).saving_total
            + (compute_metrics ex4w).investing_cashflow)
            / (compute_metrics ex4w).net_income * 100 ∧
      u = max 0 (100 - (n + w + v)) ∧
      ((compute_metrics ex4w).total_outflow ≤ (compute_metrics ex4w).net_income →
        n + w + v ≤ 100 ∧ n + w + v + u = 100)) ∧
    (compute_metrics ex4w).needs_pct = some 30 ∧
    (compute_metrics ex4w).unallocated_pct = some 50 :=
  ⟨by decide, claim_C4_amended ex4w (by decide), by decide, by decide⟩

/-- C8: net income is gross income minus
taxes + retirementEmployee + benefits + otherSSI exactly when the paycheck
breakdown flag is set, gross income unchanged otherwise, and the company
match never affects it. -/
theorem claim_C8 (s : FinState) :
    (compute_metrics s).manual_deductions_total
        = s.manual_taxes + s.manual_retirement + s.manual_benefits
          + s.manual_other_ssi ∧
    (compute_metrics s).net_income
        = (if s.use_paycheck_breakdown then
            (compute_metrics s).total_income
              - (compute_metrics s).manual_deductions_total
          else (compute_metrics s).total_income) ∧
    (∀ q : ℚ, (compute_metrics { s with manual_match := q }).net_income
        = (compute_metrics s).net_income) :=
  ⟨rfl, rfl, fun _ => rfl⟩

/-- C9: the debt burden percentage is
totalMonthlyDebtPayments / netIncome × 100 exactly when both netIncome and
the payments total are positive, and the null sentinel otherwise. -/
theorem claim_C9 (s : FinState) :
    ((0 < (compute_metrics s).net_income ∧
      0 < (compute_metrics s).total_monthly_debt_payments) →
      (compute_metrics s).debt_burden_pct
        = some ((compute_metrics s).total_monthly_debt_payments
            / (compute_metrics s).net_income * 100)) ∧
    (¬ (0 < (compute_metrics s).net_income ∧
        0 < (compute_metrics s).total_monthly_debt_payments) →
      (compute_metrics s).debt_burden_pct = none) := by
  have hb : (compute_metrics s).debt_burden_pct
      = (if 0 < (compute_metrics s).net_income ∧
            0 < (compute_metrics s).total_monthly_debt_payments then
          some ((compute_metrics s).total_monthly_debt_payments
              / (compute_metrics s).net_income * 100)
        else none) := rfl
  constructor
  · intro h; rw [hb, if_pos h]
  · intro h; rw [hb, if_neg h]

/-- Witness for C9: income 1000 with 250 of monthly debt payments gives a
25 percent debt burden. -/
theorem claim_C9_witness :
    (0 < (compute_metrics ex9).net_income ∧
     0 < (compute_metrics ex9).total_monthly_debt_payments) ∧
    (compute_metrics ex9).debt_burden_pct
        = some ((compute_metrics ex9).total_monthly_debt_payments
            / (compute_metrics ex9).net_income * 100) ∧
    (compute_metrics ex9).debt_burden_pct = some 25 :=
  ⟨by decide, (claim_C9 ex9).1 (by decide), by decide⟩

/-- Characterization of the overall-estimate guard chain: either component of
`overallEstimate` is non-null exactly when no bad row exists, both aggregate
totals are positive, a weighted APR is present, and the combined run of the
single-debt evaluator is paid_off. -/
theorem overallEstimate_ne_none_iff (hna : Bool) (tdb tmp : ℚ)
    (wapr : Option ℚ) :
    ((overallEstimate hna tdb tmp wapr).1 ≠ none ↔
      (hna = false ∧ 0 < tdb ∧ 0 < tmp ∧ ∃ wa, wapr = some wa ∧
        (estimate_debt_payoff tdb wa tmp).status = .paid_off)) ∧
    ((overallEstimate hna tdb tmp wapr).2 ≠ none ↔
      (hna = false ∧ 0 < tdb ∧ 0 < tmp ∧ ∃ wa, wapr = some wa ∧
        (estimate_debt_payoff tdb wa tmp).status = .paid_off)) := by
  cases wapr with
  | none => simp [overallEstimate]
  | some wa =>
      by_cases hc : hna = false ∧ 0 < tdb ∧ 0 < tmp
      · by_cases hst : (estimate_debt_payoff tdb wa tmp).status = .paid_off
        · have h1 : (overallEstimate hna tdb tmp (some wa)).1
              = (estimate_debt_payoff tdb wa tmp).months := by
            simp [overallEstimate, if_pos hc, if_pos hst]
          have h2 : (overallEstimate hna tdb tmp (some wa)).2
              = (estimate_debt_payoff tdb wa tmp).totalInterest := by
            simp [overallEstimate, if_pos hc, if_pos hst]
          have hsome := estimate_paid_off_isSome hst
          have hrhs : hna = false ∧ 0 < tdb ∧ 0 < tmp ∧
              ∃ wa', (some wa : Option ℚ) = some wa' ∧
                (estimate_debt_payoff tdb wa' tmp).status = .paid_off :=
            ⟨hc.1, hc.2.1, hc.2.2, wa, rfl, hst⟩
          rw [h1, h2]
          exact ⟨⟨fun _ => hrhs, fun _ => hsome.1⟩,
                 ⟨fun _ => hrhs, fun _ => hsome.2⟩⟩
        · have h1 : (overallEstimate hna tdb tmp (some wa)).1 = none := by
            simp [overallEstimate, if_pos hc, if_neg hst]
          have h2 : (overallEstimate hna tdb tmp (some wa)).2 = none := by
            simp [overallEstimate, if_pos hc, if_neg hst]
          rw [h1, h2]
          constructor <;> constructor <;>
            first
              | intro h'; exact absurd rfl h'
              | rintro ⟨-, -, -, wa', hwa, hst'⟩
                cases Option.some.inj hwa
                exact absurd hst' hst
      · have h1 : (overallEstimate hna tdb tmp (some wa)).1 = none := by
          simp [overallEstimate, if_neg hc]
        have h2 : (overallEstimate hna tdb tmp (some wa)).2 = none := by
          simp [overallEstimate, if_neg hc]
        rw [h1, h2]
        constructor <;> constructor <;>
          first
            | intro h'; exact absurd rfl h'
            | rintro ⟨hna', htdb, htmp, -⟩
              exact absurd ⟨hna', htdb, htmp⟩ hc

/-- C5: the overall combined estimate fields (months, interest, payoff date)
are non-null exactly when no included row has a bad status, total balance and
total payments are positive, the weighted APR is defined, and the single-debt
evaluator on the combined triple returns paid_off; whenever that combined run
is anything else, all three stay null. -/
theorem claim_C5 (s : FinState) :
    (((compute_metrics s).debt_overall_months ≠ none ∨
      (compute_metrics s).debt_overall_interest ≠ none ∨
      (compute_metrics s).debt_overall_payoff_date ≠ none) ↔
     ((compute_metrics s).debt_has_non_amortizing = false ∧
      0 < (compute_metrics s).total_debt_balance ∧
      0 < (compute_metrics s).total_monthly_debt_payments ∧
      ∃ wa, (compute_metrics s).debt_weighted_apr = some wa ∧
        (estimate_debt_payoff (compute_metrics s).total_debt_balance wa
          (compute_metrics s).total_monthly_debt_payments).status
            = .paid_off)) ∧
    (((compute_metrics s).debt_has_non_amortizing = false ∧
      0 < (compute_metrics s).total_debt_balance ∧
      0 < (compute_metrics s).total_monthly_debt_payments ∧
      ∃ wa, (compute_metrics s).debt_weighted_apr = some wa ∧
        (estimate_debt_payoff (compute_metrics s).total_debt_balance wa
          (compute_metrics s).total_monthly_debt_payments).status
            = .paid_off) →
      (compute_metrics s).debt_overall_months ≠ none ∧
      (compute_metrics s).debt_overall_interest ≠ none ∧
      (compute_metrics s).debt_overall_payoff_date ≠ none) := by
  have hov1 : (compute_metrics s).debt_overall_months
      = (overallEstimate (compute_metrics s).debt_has_non_amortizing
          (compute_metrics s).total_debt_balance
          (compute_metrics s).total_monthly_debt_payments
          (compute_metrics s).debt_weighted_apr).1 := rfl
  have hov2 : (compute_metrics s).debt_overall_interest
      = (overallEstimate (compute_metrics s).debt_has_non_amortizing
          (compute_metrics s).total_debt_balance
          (compute_metrics s).total_monthly_debt_payments
          (compute_metrics s).debt_weighted_apr).2 := rfl
  have hov3 : (compute_metrics s).debt_overall_payoff_date
      = (overallEstimate (compute_metrics s).debt_has_non_amortizing
          (compute_metrics s).total_debt_balance
          (compute_metrics s).total_monthly_debt_payments
          (compute_metrics s).debt_weighted_apr).1 := rfl
  have hiff := overallEstimate_ne_none_iff
    (compute_metrics s).debt_has_non_amortizing
    (compute_metrics s).total_debt_balance
    (compute_metrics s).total_monthly_debt_payments
    (compute_metrics s).debt_weighted_apr
  rw [hov1, hov2, hov3]
  constructor
  · constructor
    · rintro (h' | h' | h')
      · exact hiff.1.mp h'
      · exact hiff.2.mp h'
      · exact hiff.1.mp h'
    · intro hr
      exact Or.inl (hiff.1.mpr hr)
  · intro hr
    exact ⟨hiff.1.mpr hr, hiff.2.mpr hr, hiff.1.mpr hr⟩

/-- Witness for C5: one amortizing debt of 1000 at 12 percent paying 100 a
month surfaces an overall estimate of 11 months. -/
theorem claim_C5_witness :
    ((((compute_metrics ex5).debt_overall_months ≠ none ∨
       (compute_metrics ex5).debt_overall_interest ≠ none ∨
       (compute_metrics ex5).debt_overall_payoff_date ≠ none) ↔
      ((compute_metrics ex5).debt_has_non_amortizing = false ∧
       0 < (compute_metrics ex5).total_debt_balance ∧
       0 < (compute_metrics ex5).total_monthly_debt_payments ∧
       ∃ wa, (compute_metrics ex5).debt_weighted_apr = some wa ∧
         (estimate_debt_payoff (compute_metrics ex5).total_debt_balance wa
           (compute_metrics ex5).total_monthly_debt_payments).status
             = .paid_off)) ∧
     (((compute_metrics ex5).debt_has_non_amortizing = false ∧
       0 < (compute_metrics ex5).total_debt_balance ∧
       0 < (compute_metrics ex5).total_monthly_debt_payments ∧
       ∃ wa, (compute_metrics ex5).debt_weighted_apr = some wa ∧
         (estimate_debt_payoff (compute_metrics ex5).total_debt_balance wa
           (compute_metrics ex5).total_monthly_debt_payments).status
             = .paid_off) →
       (compute_metrics ex5).debt_overall_months ≠ none ∧
       (compute_metrics ex5).debt_overall_interest ≠ none ∧
       (compute_metrics ex5).debt_overall_payoff_date ≠ none)) ∧
    (compute_metrics ex5).debt_overall_months = some 11 :=
  ⟨claim_C5 ex5, by decide⟩

/-- Dropping the rows a Boolean predicate rejects does not change a sum whose
summand vanishes on every rejected row. -/
theorem sum_map_filter_eq (f : DebtRow → ℚ) (p : DebtRow → Bool)
    (l : List DebtRow) (h0 : ∀ d ∈ l, p d = false → f d = 0) :
    ((l.filter p).map f).sum = (l.map f).sum := by
  induction l with
  | nil => rfl
  | cons d l ih =>
      have ih' := ih fun x hx hpx => h0 x (List.mem_cons_of_mem _ hx) hpx
      cases hd : p d with
      | true => simp [List.filter_cons, hd, ih']
      | false =>
          have hz : f d = 0 := h0 d (List.mem_cons_self _ _) hd
          simp [List.filter_cons, hd, ih', hz]

/-- C7: whenever the total debt balance is positive (balances being
non-negative per the data-model invariant), the weighted APR equals
Σ(balance·apr) / Σ(balance), the balance-weighted mean over the debts with
positive balance — zero-balance rows contribute nothing to either sum — and
the spec's two-debt example yields 17.5. -/
theorem claim_C7 :
    (∀ s : FinState, (∀ d ∈ s.debts, 0 ≤ d.balance) →
      0 < (compute_metrics s).total_debt_balance →
      (compute_metrics s).debt_weighted_apr
          = some (((s.debts.map fun d => d.balance * d.apr).sum)
              / ((s.debts.map fun d => d.balance).sum)) ∧
      (s.debts.map fun d => d.balance * d.apr).sum
          = (((s.debts.filter fun d => decide (0 < d.balance)).map
              fun d => d.balance * d.apr).sum) ∧
      (s.debts.map fun d => d.balance).sum
          = (((s.debts.filter fun d => decide (0 < d.balance)).map
              fun d => d.balance).sum)) ∧
    (compute_metrics ex7).debt_weighted_apr = some (35 / 2) := by
  constructor
  · intro s hnn hpos
    have hpos' : 0 < sum_df (s.debts.map fun d => d.balance) := hpos
    have hw : (compute_metrics s).debt_weighted_apr = weightedAprOf s.debts :=
      rfl
    have hzero : ∀ d ∈ s.debts, (fun d => decide (0 < d.balance)) d = false →
        d.balance = 0 := by
      intro d hd hdec
      have : ¬ 0 < d.balance := of_decide_eq_false hdec
      exact le_antisymm (not_lt.mp this) (hnn d hd)
    refine ⟨?_, ?_, ?_⟩
    · rw [hw]
      unfold weightedAprOf
      rw [if_pos hpos', if_pos hpos']
      rfl
    · refine (sum_map_filter_eq _ _ _ ?_).symm
      intro d hd hdec
      rw [hzero d hd hdec, zero_mul]
    · refine (sum_map_filter_eq _ _ _ ?_).symm
      intro d hd hdec
      exact hzero d hd hdec
  · decide

/-- Witness for C7 at the spec's example state: balances 1000 at 10 percent
and 3000 at 20 percent give (1000·10 + 3000·20) / 4000 = 17.5. -/
theorem claim_C7_witness :
    ((∀ d ∈ ex7.debts, 0 ≤ d.balance) ∧
      0 < (compute_metrics ex7).total_debt_balance) ∧
    ((compute_metrics ex7).debt_weighted_apr
        = some (((ex7.debts.map fun d => d.balance * d.apr).sum)
            / ((ex7.debts.map fun d => d.balance).sum)) ∧
     (ex7.debts.map fun d => d.balance * d.apr).sum
        = (((ex7.debts.filter fun d => decide (0 < d.balance)).map
            fun d => d.balance * d.apr).sum) ∧
     (ex7.debts.map fun d => d.balance).sum
        = (((ex7.debts.filter fun d => decide (0 < d.balance)).map
            fun d => d.balance).sum)) ∧
    ((1000:ℚ) * 10 + 3000 * 20) / (1000 + 3000) = 35 / 2 :=
  ⟨⟨by decide, by decide⟩, claim_C7.1 ex7 (by decide) (by decide), by decide⟩
